import Mathlib

/-!
# vifm: colour schemes, version information and the file-removal primitive

A shallow embedding of `src/color_scheme.c` and `src/version.c`, together with
a model of the single-entry removal primitive exercised by
`tests/iop/rmfile.c`.

Conventions of the embedding:

* a C string is the list of its bytes up to (not including) the terminating
  NUL, so `strlen` is `List.length`;
* `int` values are `Int`; no value in this code comes near the 32-bit limits
  (string lengths are bounded by the `PATH_MAX`-sized buffers), so no
  wrap-around is modelled;
* `col_schemes` is a pointer to an array allocated elsewhere; it is modelled as
  the memory it addresses, a map from element offsets to schemes;
* constants, macros and helpers that live in headers or files outside the
  three source files are fields of `Env`.
-/

set_option autoImplicit false

namespace Vifm

/-! ## C strings and the libc routines used by the code -/

/-- Bytes of a C string, terminating NUL excluded. -/
abbrev CStr := List Nat

/-- C string literal. -/
def cstr (s : String) : CStr := s.toList.map Char.toNat

/-- Decimal numeral of a natural number, as a C string. -/
def numeral (n : Nat) : CStr := cstr (Nat.repr n)

/-- Function `isdigit` of the C locale. -/
def isdigit (c : Nat) : Bool := decide (48 ≤ c ∧ c ≤ 57)

/-- Function `isspace` of the C locale. -/
def isspace (c : Nat) : Bool := decide (c = 32 ∨ (9 ≤ c ∧ c ≤ 13))

/-- Function `tolower` of the C locale. -/
def tolower (c : Nat) : Nat := if 65 ≤ c ∧ c ≤ 90 then c + 32 else c

/-- Function `strcasecmp`; only the sign of the result is specified. -/
def strcasecmp : CStr → CStr → Int
  | [], [] => 0
  | [], _ :: _ => -1
  | _ :: _, [] => 1
  | a :: s, b :: t =>
    if tolower a = tolower b then strcasecmp s t
    else if tolower a < tolower b then -1 else 1

/-- Digit-accumulating part of `atoi`. -/
def atoi_digits : CStr → Int → Int
  | [], acc => acc
  | c :: s, acc =>
    if isdigit c then atoi_digits s (acc * 10 + ((c : Int) - 48)) else acc

/-- Function `atoi`: optional white space, optional sign, decimal digits.  The
value is the mathematical one; C leaves a value outside `int` undefined. -/
def atoi (s : CStr) : Int :=
  match s.dropWhile isspace with
  | 45 :: r => - atoi_digits r 0
  | 43 :: r => atoi_digits r 0
  | r => atoi_digits r 0

/-- Effect of `snprintf(buf, n, "%s", s)` on `buf`, whose old contents are
`old`: at most `n - 1` bytes of `s` are stored. -/
def snprintf_s (n : Nat) (old s : CStr) : CStr :=
  if n = 0 then old else s.take (n - 1)

/-! ## color_scheme.c: data -/

/-- Names of the highlight groups (`HI_GROUPS`). -/
def HI_GROUPS : List String :=
  ["Menu", "Border", "Win", "Status_bar", "CurrLine", "Directory", "Link",
   "Socket", "Device", "Executable", "Selected", "Current", "BrokenLink",
   "TopLine", "StatusLine", "Fifo", "ErrorMsg"]

/-- Number of colour pairs of one scheme.  The header defining it is not among
the sources; `HI_GROUPS_size_guard` only compiles when
`ARRAY_LEN(HI_GROUPS) + 1 == MAXNUM_COLOR`. -/
def MAXNUM_COLOR : Nat := HI_GROUPS.length + 1

/-- Colour names (`COLOR_NAMES`). -/
def COLOR_NAMES : List String :=
  ["black", "red", "green", "yellow", "blue", "magenta", "cyan", "white"]

/-- One entry of the `color` array of a scheme. -/
structure Col_pair where
  fg : Int
  bg : Int
deriving DecidableEq, Repr

/-- A colour scheme (`Col_scheme`), with the fields the code uses. -/
structure Col_scheme where
  name : CStr
  dir : CStr
  defaulted : Int
  color : List Col_pair
deriving DecidableEq, Repr

/-- Table `default_colors`, written with the curses colour numbers
(black 0, red 1, green 2, yellow 3, blue 4, magenta 5, cyan 6, white 7). -/
def default_colors : List Col_pair :=
  [⟨7, 0⟩, ⟨0, 7⟩, ⟨7, 0⟩, ⟨7, 0⟩, ⟨7, 4⟩, ⟨6, 0⟩, ⟨3, 0⟩, ⟨5, 0⟩, ⟨1, 0⟩,
   ⟨2, 0⟩, ⟨5, 0⟩, ⟨4, 0⟩, ⟨1, 0⟩, ⟨0, 7⟩, ⟨0, 7⟩, ⟨6, 0⟩, ⟨1, 0⟩]

/-- Constant `MENU_COLOR`. -/
def MENU_COLOR : Nat := 0

/-- What the code takes from outside the source files: curses globals,
`limits.h` and `config.h` constants, and helpers of the utility library. -/
structure Env where
  /-- Curses global `COLOR_PAIRS`. -/
  COLOR_PAIRS : Int
  /-- Curses global `COLORS`. -/
  COLORS : Int
  /-- Capacity constant `MAX_COLOR_SCHEMES`. -/
  MAX_COLOR_SCHEMES : Int
  /-- Size of the `name` buffer. -/
  NAME_MAX : Nat
  /-- Size of the `dir` buffer. -/
  PATH_MAX : Nat
  /-- Helper `chomp`, applied to a string in place. -/
  chomp : CStr → CStr
  /-- Helper `chosp`, applied to a string in place. -/
  chosp : CStr → CStr
  /-- Helper `is_root_dir`. -/
  is_root_dir : CStr → Bool
  /-- Helper `path_starts_with(path, begin)`. -/
  path_starts_with : CStr → CStr → Bool
  /-- What a read of `default_colors[MAXNUM_COLOR - 1]`, one row past the end
  of the table, yields. -/
  color_past_end : Col_pair

/-- The part of the program state the colour-scheme code reads and writes. -/
structure State where
  /-- Field `cfg.color_scheme_num`. -/
  color_scheme_num : Int
  /-- Field `cfg.color_scheme_cur`. -/
  color_scheme_cur : Int
  /-- Field `cfg.color_scheme`. -/
  color_scheme : Int
  /-- Memory addressed by `col_schemes`. -/
  col_schemes : Int → Col_scheme
  /-- Calls of curses `init_pair(pair, f, b)`, oldest first. -/
  init_pairs : List (Int × Int × Int)
  /-- Calls of `show_error_msg(title, message)`, oldest first. -/
  error_msgs : List (String × String)

/-- Macro `MAX_COLOR_SCHEMES_CURSES`: `COLOR_PAIRS/MAXNUM_COLOR` in C integer
division. -/
def MAX_COLOR_SCHEMES_CURSES (env : Env) : Int :=
  Int.tdiv env.COLOR_PAIRS (MAXNUM_COLOR : Int)

/-! ## color_scheme.c: operations -/

/-- Row `i` of `default_colors` as read by the initialisation loops. -/
def default_colors_at (env : Env) (i : Nat) : Col_pair :=
  default_colors.getD i env.color_past_end

/-- Function `init_color_scheme`. -/
def init_color_scheme (env : Env) (cs : Col_scheme) : Col_scheme :=
  { cs with
    dir := cstr "/"
    defaulted := 0
    color := (List.range MAXNUM_COLOR).map (default_colors_at env) }

/-- Function `check_color_scheme`. -/
def check_color_scheme (env : Env) (cs : Col_scheme) : Col_scheme :=
  if (cs.color.take (MAXNUM_COLOR - 1)).any
      (fun p => decide (p.bg > env.COLORS) || decide (p.fg > env.COLORS)) then
    { cs with
      defaulted := 1
      color := (List.range MAXNUM_COLOR).map (default_colors_at env) }
  else cs

/-- Function `check_color_schemes`. -/
def check_color_schemes (env : Env) (st : State) : State :=
  let num := min st.color_scheme_num (MAX_COLOR_SCHEMES_CURSES env)
  { st with
    color_scheme_num := num
    col_schemes := fun i =>
      if 0 ≤ i ∧ i < num then check_color_scheme env (st.col_schemes i)
      else st.col_schemes i }

/-- Calls of `init_pair` made by `load_color_schemes` for scheme `i`. -/
def load_color_scheme_pairs (cs : Col_scheme) (i : Nat) : List (Int × Int × Int) :=
  (List.range MAXNUM_COLOR).map fun x =>
    let p := cs.color.getD x ⟨0, 0⟩
    if x = MENU_COLOR then (1 + (i : Int) * MAXNUM_COLOR + x, p.bg, p.fg)
    else (1 + (i : Int) * MAXNUM_COLOR + x, p.fg, p.bg)

/-- Function `load_color_schemes`. -/
def load_color_schemes (st : State) : State :=
  { st with
    init_pairs := st.init_pairs ++
      (List.range st.color_scheme_num.toNat).flatMap fun i =>
        load_color_scheme_pairs (st.col_schemes i) i }

/-- Function `add_color_scheme`; `directory = none` is the NULL pointer.
Returns the result code and the new state. -/
def add_color_scheme (env : Env) (st : State) (name : CStr)
    (directory : Option CStr) : Int × State :=
  if st.color_scheme_num + 1 > MAX_COLOR_SCHEMES_CURSES env then
    (1, { st with
          error_msgs := st.error_msgs ++
            [("Create Color Scheme", "Too many color schemes")] })
  else
    let num := st.color_scheme_num + 1
    let cs0 := init_color_scheme env (st.col_schemes (num - 1))
    let cs1 := { cs0 with name := snprintf_s env.NAME_MAX cs0.name name }
    let cs2 :=
      match directory with
      | some d => { cs1 with dir := snprintf_s env.PATH_MAX cs1.dir d }
      | none => cs1
    (0, load_color_schemes
          { st with
            color_scheme_num := num
            col_schemes := Function.update st.col_schemes (num - 1) cs2 })

/-- Function `colname2int`. -/
def colname2int (col : CStr) : Int :=
  if isdigit (col.headD 0) then atoi col
  else if strcasecmp col (cstr "black") = 0 then 0
  else if strcasecmp col (cstr "red") = 0 then 1
  else if strcasecmp col (cstr "green") = 0 then 2
  else if strcasecmp col (cstr "yellow") = 0 then 3
  else if strcasecmp col (cstr "blue") = 0 then 4
  else if strcasecmp col (cstr "magenta") = 0 then 5
  else if strcasecmp col (cstr "cyan") = 0 then 6
  else if strcasecmp col (cstr "white") = 0 then 7
  else -1

/-- The successive results of `fgets(line, n, fp)` while the stream lasts.
Each call stores bytes until `n - 1` bytes are stored or a newline was stored;
`acc` is what the call under way has stored so far. -/
def fgets_passes (n : Nat) : List Nat → List Nat → List (List Nat)
  | acc, [] => if acc = [] then [] else [acc]
  | acc, c :: rest =>
    if c = 10 ∨ n - 1 ≤ acc.length + 1 then (acc ++ [c]) :: fgets_passes n [] rest
    else fgets_passes n (acc ++ [c]) rest

/-- One step of the scanning loop of `check_directory_for_color_scheme`:
the pair is `(max_len, max_index)`. -/
def scan_step (env : Env) (st : State) (dir : CStr) (acc : Int × Int) (i : Nat) :
    Int × Int :=
  let len := (st.col_schemes i).dir.length
  if env.path_starts_with dir (st.col_schemes i).dir then
    if (len : Int) > acc.1 then ((len : Int), (i : Int)) else acc
  else acc

/-- The scanning loop of `check_directory_for_color_scheme`. -/
def scan_schemes (env : Env) (st : State) (dir : CStr) : Int × Int :=
  (List.range st.color_scheme_num.toNat).foldl (scan_step env st dir) (0, -1)

/-- Function `check_directory_for_color_scheme`. -/
def check_directory_for_color_scheme (env : Env) (st : State) (dir : CStr) : Int :=
  let r := scan_schemes env st dir
  let cur := st.col_schemes st.color_scheme_cur
  if env.path_starts_with dir cur.dir ∧ r.1 = (cur.dir.length : Int) then
    st.color_scheme
  else if r.2 = -1 then 1 + st.color_scheme_cur * MAXNUM_COLOR
  else 1 + r.2 * MAXNUM_COLOR

/-- The property the comment of `check_directory_for_color_scheme` asks for:
the value returned is the base pair number `1 + i*MAXNUM_COLOR` of a scheme
`i` among the first `color_scheme_num`, whose directory is accepted as a
start of `dir` and is at least as long as every accepted directory. -/
def returns_longest_match (env : Env) (st : State) (dir : CStr) : Prop :=
  ∃ i : Nat, (i : Int) < st.color_scheme_num ∧
    check_directory_for_color_scheme env st dir = 1 + (i : Int) * MAXNUM_COLOR ∧
    env.path_starts_with dir (st.col_schemes i).dir = true ∧
    ∀ k : Nat, (k : Int) < st.color_scheme_num →
      env.path_starts_with dir (st.col_schemes k).dir = true →
      (st.col_schemes k).dir.length ≤ (st.col_schemes i).dir.length

/-- Some scheme among the first `color_scheme_num` has a non-empty directory
accepted as a start of `dir`. -/
def has_nonempty_match (env : Env) (st : State) (dir : CStr) : Prop :=
  ∃ j : Nat, (j : Int) < st.color_scheme_num ∧
    (st.col_schemes j).dir ≠ [] ∧
    env.path_starts_with dir (st.col_schemes j).dir = true

/-! ## Concrete environment and states used to exercise the definitions -/

/-- A helper in the shape of `chomp`: drops one trailing newline. -/
def drop_newline (s : CStr) : CStr :=
  if s.getLast? = some 10 then s.dropLast else s

/-- A helper in the shape of `chosp`: drops one trailing slash. -/
def drop_slash (s : CStr) : CStr :=
  if s.getLast? = some 47 then s.dropLast else s

/-- A helper in the shape of `path_starts_with` (the helper itself is in the
utility library, outside the sources): `start`, without a trailing slash,
begins `path` and ends there at a component boundary. -/
def starts_with_dir (path start : CStr) : Bool :=
  let b := drop_slash start
  b.isPrefixOf path &&
    (decide (path.drop b.length = []) || decide ((path.drop b.length).head? = some 47))

/-- An environment with the limits of a Linux system and an 8-colour
terminal. -/
def linux_env : Env where
  COLOR_PAIRS := 64
  COLORS := 8
  MAX_COLOR_SCHEMES := 8
  NAME_MAX := 255
  PATH_MAX := 4096
  chomp := drop_newline
  chosp := drop_slash
  is_root_dir := fun p => decide (p = cstr "/")
  path_starts_with := starts_with_dir
  color_past_end := ⟨0, 0⟩

/-- A scheme with the default colours. -/
def mk_scheme (name dir : String) : Col_scheme :=
  { init_color_scheme linux_env ⟨cstr name, [], 0, []⟩ with dir := cstr dir }

/-- Memory holding four schemes; the fourth is a second scheme for `/home`. -/
def four_schemes (i : Int) : Col_scheme :=
  if i = 0 then mk_scheme "Default" "/"
  else if i = 1 then mk_scheme "home" "/home"
  else if i = 2 then mk_scheme "user" "/home/user"
  else if i = 3 then mk_scheme "home2" "/home"
  else ⟨[], [], 0, []⟩

/-- Three schemes in use, the first one current. -/
def three_in_use : State where
  color_scheme_num := 3
  color_scheme_cur := 0
  color_scheme := 1
  col_schemes := four_schemes
  init_pairs := []
  error_msgs := []

/-- Four schemes in use, the fourth one current. -/
def four_in_use : State where
  color_scheme_num := 4
  color_scheme_cur := 3
  color_scheme := 55
  col_schemes := four_schemes
  init_pairs := []
  error_msgs := []

/-- The state `check_color_schemes` leaves when four schemes are in use and the
terminal has colour pairs for three. -/
def clamped_state : State := check_color_schemes linux_env four_in_use

/-- No scheme defined yet. -/
def empty_state : State where
  color_scheme_num := 0
  color_scheme_cur := 0
  color_scheme := 1
  col_schemes := fun _ => ⟨[], [], 0, []⟩
  init_pairs := []
  error_msgs := []

/-- A directory argument of 4096 bytes. -/
def long_directory : CStr := 47 :: List.replicate 4095 97

/-! ## version.c -/

/-- Constant `GIT_HASH`. -/
def GIT_HASH : String := "377ac648bdbaa2bc0d510d871a5b37718f7dbae5"

/-- Preprocessor symbols that decide what `fill_version_info` compiles to. -/
structure BuildConfig where
  /-- Macro `VERSION` of `config.h`. -/
  VERSION : String
  /-- Predefined macro `__DATE__`. -/
  DATE : String
  /-- Predefined macro `__TIME__`. -/
  TIME : String
  ENABLE_COMPATIBILITY_MODE : Bool
  ENABLE_EXTENDED_KEYS : Bool
  ENABLE_DESKTOP_FILES : Bool
  HAVE_LIBGTK : Bool
  HAVE_LIBMAGIC : Bool
  HAVE_X11 : Bool
  HAVE_FILE_PROG : Bool
  SUPPORT_NO_CLOBBER : Bool
  /-- Symbol `_WIN32`. -/
  WIN32 : Bool
  /-- Symbol `NDEBUG`, which compiles `assert` to nothing. -/
  NDEBUG : Bool

/-- The array `list` points to: slot `i` holds a string once it was
assigned. -/
abbrev Lines := Nat → Option String

/-- How a call of `fill_version_info` ends. -/
inductive Outcome where
  /-- The function returned `value`; `list` is the array as the call left it
  (`none` for a NULL `list`). -/
  | returned (value : Int) (list : Option Lines)
  /-- The `assert` failed and the program was aborted. -/
  | assert_failed (list : Lines)

/-- Statement `list[x++] = strdup(s)` (allocation is taken to succeed). -/
def put_line (acc : Lines × Nat) (s : String) : Lines × Nat :=
  (Function.update acc.1 acc.2 (some s), acc.2 + 1)

/-- The assignments `fill_version_info` makes to a non-NULL `list`, up to the
`assert`: the array and the final value of `x`. -/
def fill_lines (bc : BuildConfig) (list : Lines) : Lines × Nat :=
  let a := put_line (list, 0) ("Version: " ++ bc.VERSION)
  let a := put_line a ("Git commit hash: " ++ GIT_HASH)
  let a := put_line a ("Compiled at: " ++ bc.DATE ++ " " ++ bc.TIME)
  let a := put_line a ""
  let a := put_line a
    (if bc.ENABLE_COMPATIBILITY_MODE then "Compatibility mode is on"
     else "Compatibility mode is off")
  let a := put_line a
    (if bc.ENABLE_EXTENDED_KEYS then "Support of extended keys is on"
     else "Support of extended keys is off")
  let a := put_line a
    (if bc.ENABLE_DESKTOP_FILES then "Parsing of .desktop files is enabled"
     else "Parsing of .desktop files is disabled")
  let a := put_line a
    (if bc.HAVE_LIBGTK then "With GTK+ library" else "Without GTK+ library")
  let a := put_line a
    (if bc.HAVE_LIBMAGIC then "With magic library" else "Without magic library")
  let a := put_line a
    (if bc.HAVE_X11 then "With X11 library" else "Without X11 library")
  let a := put_line a
    (if bc.HAVE_FILE_PROG then "With file program" else "Without file program")
  if bc.SUPPORT_NO_CLOBBER then put_line a "With -n option for cp and mv"
  else if bc.WIN32 then a
  else put_line a "With -n option for cp and mv"

/-- Function `fill_version_info`; `list = none` is the NULL pointer. -/
def fill_version_info (bc : BuildConfig) (list : Option Lines) : Outcome :=
  let LEN : Nat := 12
  match list with
  | none => Outcome.returned LEN none
  | some l =>
    let r := fill_lines bc l
    if bc.NDEBUG = false ∧ r.2 ≠ LEN then Outcome.assert_failed r.1
    else Outcome.returned r.2 (some r.1)

/-- A Windows build without `SUPPORT_NO_CLOBBER`, assertions enabled. -/
def win32_build : BuildConfig where
  VERSION := "0.7.2"
  DATE := "Jan  1 2012"
  TIME := "00:00:00"
  ENABLE_COMPATIBILITY_MODE := true
  ENABLE_EXTENDED_KEYS := true
  ENABLE_DESKTOP_FILES := false
  HAVE_LIBGTK := false
  HAVE_LIBMAGIC := false
  HAVE_X11 := false
  HAVE_FILE_PROG := false
  SUPPORT_NO_CLOBBER := false
  WIN32 := true
  NDEBUG := false

/-- An array of unassigned slots. -/
def blank_lines : Lines := fun _ => none

/-! ## The removal primitive `iop_rmfile`

`src/io/iop.c` is not among the sources; only its test is. -/

/-- Classification of a path at the moment it is inspected. -/
inductive EntryKind where
  | Regular
  | Directory
  | Symlink
  | Special
  | Missing
deriving DecidableEq, Repr

/-- Failure kinds a primitive can report. -/
inductive Cause where
  | NotFound
  | AlreadyExists
  | WrongKind
  | NotEmpty
  | PermissionDenied
  | CrossDevice
  | IoError
deriving DecidableEq, Repr

/-- A file system: the entries that exist, each path with its kind; the first
entry of a path is the one in effect. -/
abbrev FileSystem := List (String × EntryKind)

/-- Kind of `path`; `Missing` when it has no entry (then `access(path, F_OK)`
fails). -/
def entry_kind (fs : FileSystem) (path : String) : EntryKind :=
  match fs.find? (fun e => e.1 == path) with
  | some e => e.2
  | none => EntryKind.Missing

/-- Removing the entry of `path` from its directory. -/
def unlink_entry (fs : FileSystem) (path : String) : FileSystem :=
  fs.filter (fun e => !(e.1 == path))

/-- Modelled from the spec: the `Remove` primitive, whose implementation
(`iop_rmfile` in `src/io/iop.c`) is not among the sources.  The kind of the
target is checked before removal is attempted: a `Directory` target fails with
`WrongKind` and is left as found, a missing target fails with `NotFound`, and
any other target is unlinked. -/
def Remove (fs : FileSystem) (path : String) : Except Cause FileSystem :=
  match entry_kind fs path with
  | EntryKind.Directory => Except.error Cause.WrongKind
  | EntryKind.Missing => Except.error Cause.NotFound
  | _ => Except.ok (unlink_entry fs path)

/-- Modelled from the spec: `iop_rmfile(&args)` with `args.arg1.path = path`,
absent from the sources.  It performs `Remove` and returns 0 on success and a
non-zero code on failure, with the file system as `Remove` leaves it. -/
def iop_rmfile (fs : FileSystem) (path : String) : Int × FileSystem :=
  match Remove fs path with
  | Except.ok fs1 => (0, fs1)
  | Except.error _ => (-1, fs)

/-- The fixture of `tests/iop/rmfile.c`: a file and a directory. -/
def test_fs : FileSystem :=
  [("file-to-remove", EntryKind.Regular), ("directory-to-remove", EntryKind.Directory)]

end Vifm

/-! # Theorems -/

namespace Vifm

/-! ## The removal primitive -/

theorem entry_kind_unlink_entry (fs : FileSystem) (path : String) :
    entry_kind (unlink_entry fs path) path = EntryKind.Missing := by
  have h : (unlink_entry fs path).find? (fun e => e.1 == path) = none := by
    rw [List.find?_eq_none]
    intro e he
    have h2 := (List.mem_filter.mp he).2
    simpa using h2
  simp [entry_kind, h]

/-- Claim C1: when `path` names an existing regular file, `iop_rmfile` returns 0
and afterwards the path is missing. -/
theorem iop_rmfile_removes_regular_file (fs : FileSystem) (path : String)
    (h : entry_kind fs path = EntryKind.Regular) :
    (iop_rmfile fs path).1 = 0 ∧
      entry_kind (iop_rmfile fs path).2 path = EntryKind.Missing := by
  simp [iop_rmfile, Remove, h, entry_kind_unlink_entry]

theorem iop_rmfile_removes_regular_file_witness :
    entry_kind test_fs "file-to-remove" = EntryKind.Regular ∧
      (iop_rmfile test_fs "file-to-remove").1 = 0 ∧
      entry_kind (iop_rmfile test_fs "file-to-remove").2 "file-to-remove" =
        EntryKind.Missing :=
  ⟨by decide, iop_rmfile_removes_regular_file test_fs "file-to-remove" (by decide)⟩

/-- Claim C2: when `path` names an existing directory, `iop_rmfile` returns a
non-zero code and the path is still a directory afterwards. -/
theorem iop_rmfile_keeps_directory (fs : FileSystem) (path : String)
    (h : entry_kind fs path = EntryKind.Directory) :
    (iop_rmfile fs path).1 ≠ 0 ∧
      entry_kind (iop_rmfile fs path).2 path = EntryKind.Directory := by
  simp [iop_rmfile, Remove, h]

theorem iop_rmfile_keeps_directory_witness :
    entry_kind test_fs "directory-to-remove" = EntryKind.Directory ∧
      (iop_rmfile test_fs "directory-to-remove").1 ≠ 0 ∧
      entry_kind (iop_rmfile test_fs "directory-to-remove").2 "directory-to-remove" =
        EntryKind.Directory :=
  ⟨by decide, iop_rmfile_keeps_directory test_fs "directory-to-remove" (by decide)⟩

/-! ## version.c -/

/-- With a NULL `list` the function returns 12 and there is no array to write
to. -/
theorem fill_version_info_null (bc : BuildConfig) :
    fill_version_info bc none = Outcome.returned 12 none := rfl

theorem put_line_snd (a : Lines × Nat) (s : String) : (put_line a s).2 = a.2 + 1 := rfl

theorem put_line_below (a : Lines × Nat) (s : String) (i : Nat) (h : i ≤ a.2) :
    ((put_line a s).1 i).isSome = true ∨ (i < a.2 ∧ (put_line a s).1 i = a.1 i) := by
  by_cases hi : i = a.2
  · left; simp [put_line, hi]
  · right; exact ⟨by omega, by simp [put_line, Function.update, hi]⟩

theorem put_line_above (a : Lines × Nat) (s : String) (i : Nat) (h : a.2 < i) :
    (put_line a s).1 i = a.1 i := by
  have hi : i ≠ a.2 := by omega
  simp [put_line, Function.update, hi]

/-- Number of assignments made to a non-NULL `list`: 11 in a `_WIN32` build
without `SUPPORT_NO_CLOBBER`, 12 otherwise. -/
theorem fill_lines_count (bc : BuildConfig) (l : Lines) :
    (fill_lines bc l).2 =
      if bc.SUPPORT_NO_CLOBBER = false ∧ bc.WIN32 = true then 11 else 12 := by
  unfold fill_lines
  cases bc.SUPPORT_NO_CLOBBER <;> cases bc.WIN32 <;> simp [put_line_snd]

/-- The assignments fill exactly the slots below the final `x`. -/
theorem fill_lines_slots (bc : BuildConfig) (l : Lines) :
    (∀ i, i < (fill_lines bc l).2 → ((fill_lines bc l).1 i).isSome = true) ∧
      (∀ i, (fill_lines bc l).2 ≤ i → (fill_lines bc l).1 i = l i) := by
  unfold fill_lines
  cases bc.SUPPORT_NO_CLOBBER <;> cases bc.WIN32 <;>
    simp only [put_line, Bool.false_eq_true, if_false, if_true] <;>
    (constructor
     · intro i hi
       simp only [Nat.zero_add, Nat.reduceAdd] at hi ⊢
       interval_cases i <;> simp [Function.update]
     · intro i hi
       simp only [Nat.zero_add, Nat.reduceAdd] at hi ⊢
       have : i ≠ 0 ∧ i ≠ 1 ∧ i ≠ 2 ∧ i ≠ 3 ∧ i ≠ 4 ∧ i ≠ 5 ∧ i ≠ 6 ∧ i ≠ 7 ∧ i ≠ 8 ∧
           i ≠ 9 ∧ i ≠ 10 := by omega
       obtain ⟨h0, h1, h2, h3, h4, h5, h6, h7, h8, h9, h10⟩ := this
       first
         | (have h11 : i ≠ 11 := by omega
            simp [Function.update, h0, h1, h2, h3, h4, h5, h6, h7, h8, h9, h10, h11])
         | simp [Function.update, h0, h1, h2, h3, h4, h5, h6, h7, h8, h9, h10])

/-- Whenever `fill_version_info` returns for a non-NULL `list`, the value
returned is the number of slots filled: slots below it hold a string, slots
from it on are as they were, and it is at most 12. -/
theorem fill_version_info_returned (bc : BuildConfig) (l : Lines) (x : Int)
    (r : Option Lines) (h : fill_version_info bc (some l) = Outcome.returned x r) :
    ∃ n : Nat, ∃ l1 : Lines, x = n ∧ r = some l1 ∧ n ≤ 12 ∧
      (∀ i, i < n → (l1 i).isSome = true) ∧ (∀ i, n ≤ i → l1 i = l i) := by
  unfold fill_version_info at h
  simp only at h
  split at h
  · cases h
  · cases h
    refine ⟨(fill_lines bc l).2, (fill_lines bc l).1, rfl, rfl, ?_,
      (fill_lines_slots bc l).1, (fill_lines_slots bc l).2⟩
    rw [fill_lines_count]
    split <;> omega

/-- The call with a non-NULL `list` is aborted by the `assert` exactly in a
`_WIN32` build without `SUPPORT_NO_CLOBBER` and without `NDEBUG`. -/
theorem fill_version_info_aborts_iff (bc : BuildConfig) (l : Lines) :
    (∃ l1, fill_version_info bc (some l) = Outcome.assert_failed l1) ↔
      (bc.NDEBUG = false ∧ bc.SUPPORT_NO_CLOBBER = false ∧ bc.WIN32 = true) := by
  unfold fill_version_info
  simp only [fill_lines_count]
  cases bc.NDEBUG <;> cases bc.SUPPORT_NO_CLOBBER <;> cases bc.WIN32 <;> simp

/-- Claim C8, at the failing build: in a `_WIN32` build without
`SUPPORT_NO_CLOBBER` only 11 slots are filled, so `assert(x == LEN)` fails and
the call does not return. -/
theorem fill_version_info_win32_assert_fails :
    (fill_lines win32_build blank_lines).2 = 11 ∧
      fill_version_info win32_build (some blank_lines) =
        Outcome.assert_failed (fill_lines win32_build blank_lines).1 :=
  ⟨by decide, rfl⟩

/-! ## color_scheme.c: reading the file -/

/-- No call of `fgets` stores more than the buffer holds, so nothing is lost
when its result is stored in the line buffer. -/
theorem fgets_passes_fit (n : Nat) (s acc : List Nat) (hacc : acc.length < n - 1) :
    ∀ c ∈ fgets_passes n acc s, c.length ≤ n - 1 := by
  induction s generalizing acc with
  | nil =>
    intro c hc
    unfold fgets_passes at hc
    split at hc
    · simp at hc
    · simp only [List.mem_singleton] at hc
      subst hc; omega
  | cons x t ih =>
    intro c hc
    unfold fgets_passes at hc
    split at hc
    · rcases List.mem_cons.mp hc with hc | hc
      · subst hc; simp; omega
      · exact ih [] (by simp; omega) c hc
    · rename_i hcond
      push_neg at hcond
      exact ih (acc ++ [x]) (by simp; omega) c hc

theorem snprintf_s_short (n : Nat) (old s : CStr) (h : s.length < n) :
    snprintf_s n old s = s := by
  unfold snprintf_s
  have hn : n ≠ 0 := by omega
  simp only [hn, if_false]
  exact List.take_of_length_le (by omega)

theorem snprintf_s_length (n : Nat) (old s : CStr) (h : n ≠ 0) :
    (snprintf_s n old s).length = min (n - 1) s.length := by
  simp [snprintf_s, h]

theorem load_color_schemes_num (st : State) :
    (load_color_schemes st).color_scheme_num = st.color_scheme_num := rfl

theorem load_color_schemes_col_schemes (st : State) :
    (load_color_schemes st).col_schemes = st.col_schemes := rfl

theorem add_color_scheme_full (env : Env) (st : State) (name : CStr)
    (directory : Option CStr)
    (h : st.color_scheme_num + 1 > MAX_COLOR_SCHEMES_CURSES env) :
    (add_color_scheme env st name directory).1 = 1 ∧
      (add_color_scheme env st name directory).2.color_scheme_num = st.color_scheme_num ∧
      (add_color_scheme env st name directory).2.col_schemes = st.col_schemes := by
  simp [add_color_scheme, h]

theorem add_color_scheme_room (env : Env) (st : State) (name : CStr)
    (directory : Option CStr)
    (h : ¬ st.color_scheme_num + 1 > MAX_COLOR_SCHEMES_CURSES env) :
    (add_color_scheme env st name directory).1 = 0 ∧
      (add_color_scheme env st name directory).2.color_scheme_num =
        st.color_scheme_num + 1 ∧
      (∀ i, i ≠ st.color_scheme_num →
        (add_color_scheme env st name directory).2.col_schemes i = st.col_schemes i) ∧
      ((add_color_scheme env st name directory).2.col_schemes st.color_scheme_num).name =
        snprintf_s env.NAME_MAX (st.col_schemes st.color_scheme_num).name name ∧
      ((add_color_scheme env st name directory).2.col_schemes st.color_scheme_num).dir =
        (match directory with
         | some d => snprintf_s env.PATH_MAX (cstr "/") d
         | none => cstr "/") ∧
      ((add_color_scheme env st name directory).2.col_schemes st.color_scheme_num).defaulted
        = 0 := by
  unfold add_color_scheme
  simp only [h, if_false, load_color_schemes_num, load_color_schemes_col_schemes,
    add_sub_cancel_right, Function.update_same]
  refine ⟨trivial, trivial, ?_, ?_, ?_, ?_⟩
  · intro i hi
    simp [Function.update, hi]
  · cases directory <;> simp [init_color_scheme]
  · cases directory <;> simp [init_color_scheme]
  · cases directory <;> simp [init_color_scheme]

/-- Claim C7, as amended: `add_color_scheme` fails exactly when
`cfg.color_scheme_num + 1 > COLOR_PAIRS/MAXNUM_COLOR`; then it returns 1 and
leaves the number of schemes and every scheme unchanged.  Otherwise it returns
0, increases the number by one, leaves every other scheme unchanged, and the
new last scheme has the given name (for names shorter than `NAME_MAX`), the
given directory (for directories shorter than `PATH_MAX`) or `/` when the
directory is NULL, and `defaulted = 0`. -/
theorem add_color_scheme_spec (env : Env) (st : State) (name : CStr)
    (directory : Option CStr) :
    ((add_color_scheme env st name directory).1 = 1 ↔
        st.color_scheme_num + 1 > MAX_COLOR_SCHEMES_CURSES env) ∧
      (st.color_scheme_num + 1 > MAX_COLOR_SCHEMES_CURSES env →
        (add_color_scheme env st name directory).1 = 1 ∧
        (add_color_scheme env st name directory).2.color_scheme_num =
          st.color_scheme_num ∧
        (add_color_scheme env st name directory).2.col_schemes = st.col_schemes) ∧
      (¬ st.color_scheme_num + 1 > MAX_COLOR_SCHEMES_CURSES env →
        (add_color_scheme env st name directory).1 = 0 ∧
        (add_color_scheme env st name directory).2.color_scheme_num =
          st.color_scheme_num + 1 ∧
        (∀ i, i ≠ st.color_scheme_num →
          (add_color_scheme env st name directory).2.col_schemes i = st.col_schemes i) ∧
        (name.length < env.NAME_MAX →
          ((add_color_scheme env st name directory).2.col_schemes
            st.color_scheme_num).name = name) ∧
        (∀ d, directory = some d → d.length < env.PATH_MAX →
          ((add_color_scheme env st name directory).2.col_schemes
            st.color_scheme_num).dir = d) ∧
        (directory = none →
          ((add_color_scheme env st name directory).2.col_schemes
            st.color_scheme_num).dir = cstr "/") ∧
        ((add_color_scheme env st name directory).2.col_schemes
          st.color_scheme_num).defaulted = 0) := by
  refine ⟨?_, add_color_scheme_full env st name directory, ?_⟩
  · constructor
    · intro h1
      by_contra h2
      have := (add_color_scheme_room env st name directory h2).1
      omega
    · intro h1
      exact (add_color_scheme_full env st name directory h1).1
  · intro h
    obtain ⟨h1, h2, h3, h4, h5, h6⟩ := add_color_scheme_room env st name directory h
    refine ⟨h1, h2, h3, ?_, ?_, ?_, h6⟩
    · intro hn
      rw [h4, snprintf_s_short _ _ _ hn]
    · intro d hd hlen
      subst hd
      rw [h5]
      exact snprintf_s_short _ _ _ hlen
    · intro hd
      subst hd
      rw [h5]

theorem add_color_scheme_spec_witness :
    (add_color_scheme linux_env empty_state (cstr "dark") (some (cstr "/home"))).1 = 0 ∧
      ((add_color_scheme linux_env empty_state (cstr "dark")
        (some (cstr "/home"))).2.col_schemes 0).name = cstr "dark" ∧
      ((add_color_scheme linux_env empty_state (cstr "dark")
        (some (cstr "/home"))).2.col_schemes 0).dir = cstr "/home" ∧
      ((add_color_scheme linux_env empty_state (cstr "dark") none).2.col_schemes 0).dir =
        cstr "/" ∧
      (add_color_scheme linux_env three_in_use (cstr "dark") (some (cstr "/home"))).1 = 1 ∧
      (add_color_scheme linux_env empty_state (cstr "dark") (some long_directory)).1 = 0 ∧
      ((add_color_scheme linux_env empty_state (cstr "dark")
        (some long_directory)).2.col_schemes 0).name = cstr "dark" :=
  have h := (add_color_scheme_spec linux_env empty_state (cstr "dark")
    (some (cstr "/home"))).2.2 (by decide)
  have hn := (add_color_scheme_spec linux_env empty_state (cstr "dark") none).2.2
    (by decide)
  have h3 := (add_color_scheme_spec linux_env three_in_use (cstr "dark")
    (some (cstr "/home"))).2.1 (by decide)
  have hl := (add_color_scheme_spec linux_env empty_state (cstr "dark")
    (some long_directory)).2.2 (by decide)
  ⟨h.1, h.2.2.2.1 (by decide), h.2.2.2.2.1 _ rfl (by decide), hn.2.2.2.2.2.1 rfl,
   h3.1, hl.1, hl.2.2.2.1 (by decide)⟩

theorem long_directory_length : long_directory.length = 4096 := by
  unfold long_directory
  rw [List.length_cons, List.length_replicate]

/-- Claim C7 as stated fails for a long directory: with room for a new scheme
and a directory argument of 4096 bytes (`PATH_MAX` is 4096), the new scheme's
directory is the first 4095 bytes only, not the given directory. -/
theorem add_color_scheme_truncates_directory :
    ¬ (empty_state.color_scheme_num + 1 > MAX_COLOR_SCHEMES_CURSES linux_env) ∧
      (add_color_scheme linux_env empty_state (cstr "dark") (some long_directory)).1 = 0 ∧
      ((add_color_scheme linux_env empty_state (cstr "dark")
        (some long_directory)).2.col_schemes empty_state.color_scheme_num).dir.length
        = 4095 ∧
      ((add_color_scheme linux_env empty_state (cstr "dark")
        (some long_directory)).2.col_schemes empty_state.color_scheme_num).dir
        ≠ long_directory := by
  have hroom : ¬ (empty_state.color_scheme_num + 1 > MAX_COLOR_SCHEMES_CURSES linux_env) := by
    decide
  obtain ⟨h1, -, -, -, h5, -⟩ :=
    add_color_scheme_room linux_env empty_state (cstr "dark") (some long_directory) hroom
  have hlen : ((add_color_scheme linux_env empty_state (cstr "dark")
      (some long_directory)).2.col_schemes empty_state.color_scheme_num).dir.length
      = 4095 := by
    rw [h5]
    simp only []
    rw [snprintf_s_length _ _ _ (by decide), long_directory_length]
    decide
  refine ⟨hroom, h1, hlen, ?_⟩
  intro heq
  rw [heq, long_directory_length] at hlen
  omega

/-! ## color_scheme.c: colour names -/

theorem strcasecmp_eq_zero_iff (a b : CStr) :
    strcasecmp a b = 0 ↔ a.map tolower = b.map tolower := by
  induction a generalizing b with
  | nil => cases b <;> simp [strcasecmp]
  | cons x s ih =>
    cases b with
    | nil => simp [strcasecmp]
    | cons y t =>
      by_cases h : tolower x = tolower y
      · simp [strcasecmp, h, ih]
      · by_cases h2 : tolower x < tolower y <;> simp [strcasecmp, h, h2]

theorem isdigit_false_of_tolower (c : Nat) (h : 97 ≤ tolower c) : isdigit c = false := by
  unfold tolower at h
  unfold isdigit
  split at h <;> simp <;> omega

/-- A string that reads as one of the colour names, whatever the case of its
letters, does not begin with a digit. -/
theorem isdigit_head_of_name (s : CStr) (name : String) (hn : name ∈ COLOR_NAMES)
    (h : s.map tolower = cstr name) : isdigit (s.headD 0) = false := by
  cases s with
  | nil =>
    simp [COLOR_NAMES] at hn
    rcases hn with rfl | rfl | rfl | rfl | rfl | rfl | rfl | rfl <;> simp [cstr] at h
  | cons c t =>
    apply isdigit_false_of_tolower
    simp only [List.headD_cons]
    have hc : (cstr name).head? = some (tolower c) := by rw [← h]; rfl
    simp [COLOR_NAMES] at hn
    rcases hn with rfl | rfl | rfl | rfl | rfl | rfl | rfl | rfl <;>
      (simp [cstr] at hc; omega)

/-- Past the digit test, `colname2int` is a lookup of the lower-cased string
among the eight names. -/
theorem colname2int_of_not_digit (s : CStr) (h : isdigit (s.headD 0) = false) :
    colname2int s =
      if s.map tolower = cstr "black" then 0
      else if s.map tolower = cstr "red" then 1
      else if s.map tolower = cstr "green" then 2
      else if s.map tolower = cstr "yellow" then 3
      else if s.map tolower = cstr "blue" then 4
      else if s.map tolower = cstr "magenta" then 5
      else if s.map tolower = cstr "cyan" then 6
      else if s.map tolower = cstr "white" then 7
      else -1 := by
  have e1 : (cstr "black").map tolower = cstr "black" := by decide
  have e2 : (cstr "red").map tolower = cstr "red" := by decide
  have e3 : (cstr "green").map tolower = cstr "green" := by decide
  have e4 : (cstr "yellow").map tolower = cstr "yellow" := by decide
  have e5 : (cstr "blue").map tolower = cstr "blue" := by decide
  have e6 : (cstr "magenta").map tolower = cstr "magenta" := by decide
  have e7 : (cstr "cyan").map tolower = cstr "cyan" := by decide
  have e8 : (cstr "white").map tolower = cstr "white" := by decide
  unfold colname2int
  simp only [h, Bool.false_eq_true, if_false, strcasecmp_eq_zero_iff, e1, e2, e3, e4, e5,
    e6, e7, e8]

/-- Claim C5: `colname2int` returns 0..7 for every upper/lower-case spelling of
black, red, green, yellow, blue, magenta, cyan, white; returns `n` for the
decimal numeral of every `n` in 0..255; and returns -1 for "default", for "-1"
and for every other string that does not start with a digit and is not a
spelling of one of the eight names. -/
theorem colname2int_spec :
    (∀ (s : CStr) (k : Nat) (name : String), COLOR_NAMES.get? k = some name →
        s.map tolower = cstr name → colname2int s = (k : Int)) ∧
      (∀ n : Nat, n ≤ 255 → colname2int (numeral n) = (n : Int)) ∧
      colname2int (cstr "default") = -1 ∧
      colname2int (cstr "-1") = -1 ∧
      (∀ s : CStr, isdigit (s.headD 0) = false →
        (∀ name ∈ COLOR_NAMES, s.map tolower ≠ cstr name) → colname2int s = -1) := by
  refine ⟨?_, ?_, by decide, by decide, ?_⟩
  · intro s k name hk hs
    have hmem : name ∈ COLOR_NAMES := List.get?_mem hk
    rw [colname2int_of_not_digit s (isdigit_head_of_name s name hmem hs), hs]
    have hk8 : k < 8 := by
      by_contra hge
      have : COLOR_NAMES.get? k = none := List.get?_eq_none.mpr (by simp [COLOR_NAMES]; omega)
      rw [this] at hk
      cases hk
    interval_cases k <;> (simp [COLOR_NAMES] at hk; subst hk; decide)
  · intro n hn
    interval_cases n <;> decide
  · intro s hd hnames
    rw [colname2int_of_not_digit s hd]
    simp [COLOR_NAMES] at hnames
    obtain ⟨h1, h2, h3, h4, h5, h6, h7, h8⟩ := hnames
    simp [h1, h2, h3, h4, h5, h6, h7, h8]

theorem colname2int_spec_witness :
    colname2int (cstr "MaGeNtA") = 5 ∧ colname2int (numeral 200) = 200 ∧
      colname2int (cstr "transparent") = -1 :=
  ⟨colname2int_spec.1 (cstr "MaGeNtA") 5 "magenta" (by decide) (by decide),
   colname2int_spec.2.1 200 (by decide),
   colname2int_spec.2.2.2.2 (cstr "transparent") (by decide) (by decide)⟩

/-! ## color_scheme.c: choosing the scheme of a directory -/

/-- Invariant of the scanning loop after the first `n` schemes: either nothing
with a non-empty directory matched yet, or `max_index` is a matching scheme
whose directory length is `max_len`, the largest among the matching ones. -/
theorem scan_invariant (env : Env) (st : State) (dir : CStr) (n : Nat) :
    (((List.range n).foldl (scan_step env st dir) (0, -1)).2 = -1 ∧
        ((List.range n).foldl (scan_step env st dir) (0, -1)).1 = 0 ∧
        ∀ k : Nat, k < n → env.path_starts_with dir (st.col_schemes k).dir = true →
          (st.col_schemes k).dir.length = 0) ∨
      (∃ i : Nat, i < n ∧
        ((List.range n).foldl (scan_step env st dir) (0, -1)).2 = (i : Int) ∧
        ((List.range n).foldl (scan_step env st dir) (0, -1)).1 =
          ((st.col_schemes i).dir.length : Int) ∧
        env.path_starts_with dir (st.col_schemes i).dir = true ∧
        0 < (st.col_schemes i).dir.length ∧
        ∀ k : Nat, k < n → env.path_starts_with dir (st.col_schemes k).dir = true →
          (st.col_schemes k).dir.length ≤ (st.col_schemes i).dir.length) := by
  induction n with
  | zero => left; simp
  | succ n ih =>
    rw [List.range_succ, List.foldl_append, List.foldl_cons, List.foldl_nil]
    generalize (List.range n).foldl (scan_step env st dir) (0, -1) = r at ih
    by_cases hm : env.path_starts_with dir (st.col_schemes n).dir = true
    · by_cases hl : ((st.col_schemes n).dir.length : Int) > r.1
      · right
        refine ⟨n, by omega, ?_, ?_, hm, ?_, ?_⟩
        · simp [scan_step, hm, hl]
        · simp [scan_step, hm, hl]
        · rcases ih with ⟨-, h0, -⟩ | ⟨i, -, -, h1, -, h2, -⟩ <;> omega
        · intro k hk hpk
          rcases Nat.lt_succ_iff_lt_or_eq.mp hk with hk | hk
          · rcases ih with ⟨-, h0, h3⟩ | ⟨i, -, -, h1, -, -, h3⟩
            · have := h3 k hk hpk; omega
            · have := h3 k hk hpk; omega
          · subst hk; exact le_refl _
      · have hstep : scan_step env st dir r n = r := by simp [scan_step, hm, hl]
        rw [hstep]
        rcases ih with ⟨h1, h0, h3⟩ | ⟨i, hi, h1, h2, h4, h5, h3⟩
        · left
          refine ⟨h1, h0, ?_⟩
          intro k hk hpk
          rcases Nat.lt_succ_iff_lt_or_eq.mp hk with hk | hk
          · exact h3 k hk hpk
          · subst hk; omega
        · right
          refine ⟨i, by omega, h1, h2, h4, h5, ?_⟩
          intro k hk hpk
          rcases Nat.lt_succ_iff_lt_or_eq.mp hk with hk | hk
          · exact h3 k hk hpk
          · subst hk; omega
    · have hstep : scan_step env st dir r n = r := by simp [scan_step, hm]
      rw [hstep]
      rcases ih with ⟨h1, h0, h3⟩ | ⟨i, hi, h1, h2, h4, h5, h3⟩
      · left
        refine ⟨h1, h0, ?_⟩
        intro k hk hpk
        rcases Nat.lt_succ_iff_lt_or_eq.mp hk with hk | hk
        · exact h3 k hk hpk
        · subst hk; exact absurd hpk hm
      · right
        refine ⟨i, by omega, h1, h2, h4, h5, ?_⟩
        intro k hk hpk
        rcases Nat.lt_succ_iff_lt_or_eq.mp hk with hk | hk
        · exact h3 k hk hpk
        · subst hk; exact absurd hpk hm

/-- Claim C3, as amended: when `cfg.color_scheme = 1 + cfg.color_scheme_cur *
MAXNUM_COLOR`, the current scheme is one of the schemes in use
(`0 ≤ cfg.color_scheme_cur < cfg.color_scheme_num`) and some scheme in use has
a non-empty directory accepted as a start of `dir`, the function returns
`1 + i*MAXNUM_COLOR` for a scheme `i` in use whose directory is accepted and is
at least as long as every accepted directory. -/
theorem check_directory_longest_match (env : Env) (st : State) (dir : CStr)
    (hcs : st.color_scheme = 1 + st.color_scheme_cur * MAXNUM_COLOR)
    (hcur : 0 ≤ st.color_scheme_cur ∧ st.color_scheme_cur < st.color_scheme_num)
    (hex : has_nonempty_match env st dir) :
    returns_longest_match env st dir := by
  obtain ⟨j, hj, hjne, hjm⟩ := hex
  have hjn : j < st.color_scheme_num.toNat := by omega
  have hjlen : 0 < (st.col_schemes j).dir.length := List.length_pos.mpr hjne
  have hlt : ∀ k : Nat, (k : Int) < st.color_scheme_num → k < st.color_scheme_num.toNat := by
    intro k hk; omega
  rcases scan_invariant env st dir st.color_scheme_num.toNat with
    ⟨-, -, h3⟩ | ⟨i, hi, h1, h2, h4, h5, h3⟩
  · have := h3 j hjn hjm; omega
  · unfold returns_longest_match check_directory_for_color_scheme scan_schemes
    simp only [h1, h2]
    by_cases hc : env.path_starts_with dir (st.col_schemes st.color_scheme_cur).dir = true ∧
        ((st.col_schemes i).dir.length : Int) =
          ((st.col_schemes st.color_scheme_cur).dir.length : Int)
    · obtain ⟨c, hceq⟩ := Int.eq_ofNat_of_zero_le hcur.1
      rw [hceq] at hc hcur
      refine ⟨c, hcur.2, ?_, hc.1, ?_⟩
      · rw [if_pos (by rw [hceq]; exact hc), hcs, hceq]
      · intro k hk hpk
        have := h3 k (hlt k hk) hpk
        omega
    · refine ⟨i, by omega, ?_, h4, fun k hk hpk => h3 k (hlt k hk) hpk⟩
      rw [if_neg hc]
      have hne : ¬ ((i : Int) = -1) := by omega
      rw [if_neg hne]

theorem check_directory_longest_match_witness :
    returns_longest_match linux_env three_in_use (cstr "/home/user/docs") :=
  check_directory_longest_match linux_env three_in_use (cstr "/home/user/docs")
    (by decide) (by decide) ⟨1, by decide, by decide, by decide⟩

/-- Claim C3 as stated fails when the current scheme is not among the schemes
in use.  After `check_color_schemes` has cut four schemes down to the three an
8-colour terminal has pairs for, the fourth scheme is still the current one;
its directory ties with the longest match, so its base number 55 is returned,
which is the base number of no scheme in use. -/
theorem current_scheme_not_in_use :
    clamped_state.color_scheme_num = 3 ∧ clamped_state.color_scheme_cur = 3 ∧
      clamped_state.color_scheme =
        1 + clamped_state.color_scheme_cur * MAXNUM_COLOR ∧
      has_nonempty_match linux_env clamped_state (cstr "/home/x") ∧
      check_directory_for_color_scheme linux_env clamped_state (cstr "/home/x") = 55 ∧
      ¬ returns_longest_match linux_env clamped_state (cstr "/home/x") := by
  have hnum : clamped_state.color_scheme_num = 3 := by decide
  have hval : check_directory_for_color_scheme linux_env clamped_state (cstr "/home/x") = 55 := by
    decide
  refine ⟨hnum, by decide, by decide, ⟨1, by decide, by decide, by decide⟩, hval, ?_⟩
  rintro ⟨i, hi, hr, -, -⟩
  rw [hval] at hr
  rw [hnum] at hi
  have hM : (MAXNUM_COLOR : Int) = 18 := by decide
  rw [hM] at hr
  omega

/-- Claim C4, at the failing input: the comment of the function promises the
base numbers 0, 12 and 24 (12 pairs per scheme) for the first, second and third
scheme; with three schemes in use, for a directory whose longest match is the
first, the second and the third scheme, the function returns 1, 19 and 37. -/
theorem base_number_is_not_twelve_per_scheme :
    ((scan_schemes linux_env three_in_use (cstr "/usr")).2 = 0 ∧
        check_directory_for_color_scheme linux_env three_in_use (cstr "/usr") = 1 ∧
        check_directory_for_color_scheme linux_env three_in_use (cstr "/usr") ≠ 12 * 0) ∧
      ((scan_schemes linux_env three_in_use (cstr "/home/x")).2 = 1 ∧
        check_directory_for_color_scheme linux_env three_in_use (cstr "/home/x") = 19 ∧
        check_directory_for_color_scheme linux_env three_in_use (cstr "/home/x") ≠ 12 * 1) ∧
      ((scan_schemes linux_env three_in_use (cstr "/home/user/docs")).2 = 2 ∧
        check_directory_for_color_scheme linux_env three_in_use (cstr "/home/user/docs") = 37 ∧
        check_directory_for_color_scheme linux_env three_in_use (cstr "/home/user/docs")
          ≠ 12 * 2) := by
  decide

end Vifm
